import Mathlib

/-!
A shallow embedding of the premium calculator's actuarial and underwriting
core (underwriting_engine.py, actuarial_calculator.py, regulatory_engine.py),
with theorems checking the behavioural claims made about it.

Modelling conventions:
* Python floats are modelled as rationals (`ℚ`); Python ints as `ℤ`
  (loop counters and ages fed to `range` as `ℕ`).
* The JSON rule/table data under `data/` is configuration supplied by the
  caller, so rule tables appear as explicit parameters: ordered association
  lists model Python dicts (insertion-ordered; a `for ... items()` loop with
  `break` is a first-match lookup).
* Python dict `.get(key, default)` on optional fields is modelled with
  `Option` plus `Option.getD`.
* Human-readable risk-factor strings are presentation text; where a claim
  only cares about whether a factor is reported (the BMI band's
  `Optional[str]`), the text is abstracted to a `Bool` presence flag.
-/

namespace PremiumCalc

/-- The `UnderwritingDecision` enum of underwriting_engine.py. -/
inductive UnderwritingDecision
  | approved_standard
  | approved_substandard
  | approved_preferred
  | declined
  | postponed
deriving DecidableEq

/-- The `medical_history` sub-dict of the applicant data.  `height`, `weight`
and `age` may be absent (`medical_history.get` / `in` checks in the source);
`age` defaults to 30 at its use site. -/
structure MedicalHistory where
  conditions : List String
  height : Option ℚ
  weight : Option ℚ
  age : Option ℤ
deriving DecidableEq

/-- The `lifestyle` sub-dict, with the source's defaults already applied. -/
structure Lifestyle where
  smoking_status : String
  alcohol_use : String
  hazardous_activities : List String
deriving DecidableEq

/-- The `occupation` sub-dict: `occupation.get('class', 2)` and title. -/
structure Occupation where
  cls : ℤ
  title : String
deriving DecidableEq

/-- The `financial_info` sub-dict (each field defaults to 0 via `.get`). -/
structure FinancialInfo where
  annual_income : ℚ
  net_worth : ℚ
  total_debt : ℚ
deriving DecidableEq

/-- An applicant record as consumed by
`perform_comprehensive_risk_assessment`: `applicant_data.get('age', 30)` plus
the four sub-dicts. -/
structure Applicant where
  age : ℤ
  medical_history : MedicalHistory
  lifestyle : Lifestyle
  occupation : Occupation
  financial_info : FinancialInfo
deriving DecidableEq

/-- The slice of `data/underwriting_rules.json` that the engine reads.
`medical_conditions` maps category name to an ordered table of
condition-name/multiplier pairs; the other fields are the flat multiplier
tables and the financial-underwriting constants. -/
structure UnderwritingRules where
  medical_conditions : List (String × List (String × ℚ))
  smoking : List (String × ℚ)
  alcohol : List (String × ℚ)
  hazardous_activities : List (String × ℚ)
  occupation_factors : List (String × ℚ)
  life_max_coverage_multiple : ℚ
  disability_max_benefit_percentage : ℚ
  net_worth_1m_min : ℚ
  net_worth_5m_min : ℚ
deriving DecidableEq

/-- Ordered-dict key lookup (Python `key in d` / `d[key]`): first entry
whose key equals the query. -/
def strLookup {α : Type} : List (String × α) → String → Option α
  | [], _ => none
  | (k, v) :: rest, c => if k = c then some v else strLookup rest c

/-- First-category-match-wins search for a condition across the medical
category tables, as in the `for category_name, category_data ... break`
loop of `_assess_medical_risk`. -/
def condLookup : List (String × List (String × ℚ)) → String → Option ℚ
  | [], _ => none
  | (_, cat) :: rest, c =>
    match strLookup cat c with
    | some m => some m
    | none => condLookup rest c

/-- Per-condition factor of `_assess_medical_risk`: the matching category
entry's multiplier, or the conservative 1.5 default for an unknown
condition. -/
def conditionMultiplier (mc : List (String × List (String × ℚ))) (c : String) : ℚ :=
  (condLookup mc c).getD (3/2)

/-- `_calculate_bmi`: guards against non-positive height with a default BMI
of 25, otherwise `weight * 703 / height²`. -/
def calculate_bmi (weight_lbs height_inches : ℚ) : ℚ :=
  if height_inches ≤ 0 then 25
  else weight_lbs * 703 / height_inches ^ 2

/-- `_assess_bmi_risk`: banded step function of BMI.  The second component
records whether a factor string is reported (the normal band returns
`None`). -/
def assess_bmi_risk (bmi : ℚ) : ℚ × Bool :=
  if bmi < 37/2 then (6/5, true)
  else if 37/2 ≤ bmi ∧ bmi < 25 then (1, false)
  else if 25 ≤ bmi ∧ bmi < 30 then (11/10, true)
  else if 30 ≤ bmi ∧ bmi < 35 then (13/10, true)
  else if 35 ≤ bmi ∧ bmi < 40 then (2, true)
  else (3, true)

/-- `_assess_medical_risk`: multiply in each declared condition's
multiplier (1.5 default when unrecognized), then the BMI multiplier when
both height and weight are present, then the 1.1 age adjustment when a
condition exists and `medical_history.get('age', 30) > 60`. -/
def assess_medical_risk (rules : UnderwritingRules) (mh : MedicalHistory) : ℚ :=
  let condMult := mh.conditions.foldl
    (fun acc c => acc * conditionMultiplier rules.medical_conditions c) 1
  let withBmi :=
    match mh.height, mh.weight with
    | some h, some w => condMult * (assess_bmi_risk (calculate_bmi w h)).1
    | _, _ => condMult
  let age := mh.age.getD 30
  if 0 < mh.conditions.length ∧ 60 < age then withBmi * (11/10) else withBmi

/-- `_assess_lifestyle_risk`: smoking multiplier for non-"non_smoker"
statuses found in the rules, alcohol multiplier when the use level is
tabulated, and one factor per tabulated hazardous activity. -/
def assess_lifestyle_risk (rules : UnderwritingRules) (ls : Lifestyle) : ℚ :=
  let smokingMult :=
    if ls.smoking_status ≠ "non_smoker" then
      match strLookup rules.smoking ls.smoking_status with
      | some m => m
      | none => 1
    else 1
  let alcoholMult :=
    match strLookup rules.alcohol ls.alcohol_use with
    | some m => m
    | none => 1
  let hazardMult := ls.hazardous_activities.foldl
    (fun acc a => acc * ((strLookup rules.hazardous_activities a).getD 1)) 1
  smokingMult * alcoholMult * hazardMult

/-- The class-key string built by `_assess_occupation_risk`'s conditional
expression (any class other than 1-4 falls to `"class_5_hazardous"`). -/
def occupation_class_key (cls : ℤ) : String :=
  if cls = 1 then "class_1_professional"
  else if cls = 2 then "class_2_standard"
  else if cls = 3 then "class_3_skilled"
  else if cls = 4 then "class_4_manual"
  else "class_5_hazardous"

/-- `_assess_occupation_risk`: class multiplier from the rules (1.0 when the
key is absent), with a 1.2 adjustment for class ≥ 4 and age > 50. -/
def assess_occupation_risk (rules : UnderwritingRules) (occ : Occupation) (age : ℤ) : ℚ :=
  let m :=
    match strLookup rules.occupation_factors (occupation_class_key occ.cls) with
    | some mult => mult
    | none => 1
  if 4 ≤ occ.cls ∧ 50 < age then m * (12/10) else m

/-- The financial risk score of `_assess_financial_capacity` up to (but not
including) the final debt-to-income step: the income-multiple check for
life/disability products, then the net-worth tiers for coverage ≥ $1M,
whose scores overwrite the income-based score. -/
def financial_base_score (rules : UnderwritingRules) (fi : FinancialInfo)
    (coverage_amount : ℤ) (product_type : String) : ℚ :=
  let incomeScore : ℚ :=
    if product_type = "term_life" ∨ product_type = "whole_life" then
      if (coverage_amount : ℚ) > fi.annual_income * rules.life_max_coverage_multiple then 2
      else 1
    else if product_type = "disability_income" then
      if (coverage_amount : ℚ) > fi.annual_income / 12 * rules.disability_max_benefit_percentage then 2
      else 1
    else 1
  if 1000000 ≤ coverage_amount then
    if 5000000 ≤ coverage_amount then
      if fi.net_worth < rules.net_worth_5m_min then 3 else incomeScore
    else
      if fi.net_worth < rules.net_worth_1m_min then 2 else incomeScore
  else incomeScore

/-- `_assess_financial_capacity`: the base score followed by the
debt-to-income step, which runs only under the `annual_income > 0` guard and
multiplies the score by 1.3 when debt/income exceeds 0.4. -/
def assess_financial_capacity (rules : UnderwritingRules) (fi : FinancialInfo)
    (coverage_amount : ℤ) (product_type : String) : ℚ :=
  let score := financial_base_score rules fi coverage_amount product_type
  if 0 < fi.annual_income then
    if 2/5 < fi.total_debt / fi.annual_income then score * (13/10) else score
  else score

/-- `_combine_risk_factors`: multiplicative combination capped at 10. -/
def combine_risk_factors (medical_risk lifestyle_risk occupation_risk : ℚ) : ℚ :=
  min (medical_risk * lifestyle_risk * occupation_risk) 10

/-- `_make_underwriting_decision`: financial decline gate, then the
risk-banded decision ladder with its coverage caps.  (The source also takes
the risk-factor string list, which its body never reads.) -/
def make_underwriting_decision (overall_risk financial_risk : ℚ)
    (coverage_amount : ℤ) : UnderwritingDecision × ℤ :=
  if 3 ≤ financial_risk then (UnderwritingDecision.declined, 0)
  else if overall_risk ≤ 95/100 then (UnderwritingDecision.approved_preferred, coverage_amount)
  else if overall_risk ≤ 2 then
    if overall_risk ≤ 12/10 then (UnderwritingDecision.approved_standard, coverage_amount)
    else (UnderwritingDecision.approved_substandard, min coverage_amount 2000000)
  else if overall_risk ≤ 4 then
    (UnderwritingDecision.approved_substandard, min coverage_amount 500000)
  else (UnderwritingDecision.declined, 0)

/-- The `RiskAssessment` dataclass (the presentation-text fields,
`risk_factors_identified` and `underwriting_notes`, are omitted). -/
structure RiskAssessment where
  overall_risk_multiplier : ℚ
  medical_risk_multiplier : ℚ
  lifestyle_risk_multiplier : ℚ
  occupation_risk_multiplier : ℚ
  financial_risk_score : ℚ
  underwriting_decision : UnderwritingDecision
  maximum_coverage : ℤ
deriving DecidableEq

/-- `perform_comprehensive_risk_assessment`: the four sub-assessments, the
combined multiplier, and the final decision.  Note that the medical
assessment receives only the `medical_history` sub-dict, not the applicant's
top-level age. -/
def perform_comprehensive_risk_assessment (rules : UnderwritingRules) (a : Applicant)
    (product_type : String) (coverage_amount : ℤ) : RiskAssessment :=
  let medical := assess_medical_risk rules a.medical_history
  let lifestyle := assess_lifestyle_risk rules a.lifestyle
  let occupation := assess_occupation_risk rules a.occupation a.age
  let financial := assess_financial_capacity rules a.financial_info coverage_amount product_type
  let overall := combine_risk_factors medical lifestyle occupation
  let decision := make_underwriting_decision overall financial coverage_amount
  { overall_risk_multiplier := overall
    medical_risk_multiplier := medical
    lifestyle_risk_multiplier := lifestyle
    occupation_risk_multiplier := occupation
    financial_risk_score := financial
    underwriting_decision := decision.1
    maximum_coverage := decision.2 }

/-! ### Actuarial calculator (actuarial_calculator.py)

The CSO mortality table is modelled as a total function `q : ℕ → ℚ`,
already encoding `cso_table.get(str(age), cso_table['80'])`; every lookup
in the source first clamps the age with `min(age + year, 80)`, which the
embedding keeps explicit. -/

/-- `_calculate_mortality_cost`: the year-by-year sum of
`mortality_rate / (1+r)^year` over `[0, term)`, each year's cost computed
independently. -/
def calculate_mortality_cost (q : ℕ → ℚ) (r : ℚ) (age term : ℕ) : ℚ :=
  (List.range term).foldl
    (fun acc year => acc + q (min (age + year) 80) * (1 / (1 + r) ^ year)) 0

/-- `_calculate_benefit_present_value`: coverage times the mortality cost
(the age/gender/term arguments of the source are unused by its body). -/
def calculate_benefit_present_value (coverage : ℤ) (mortality_cost : ℚ) : ℚ :=
  (coverage : ℚ) * mortality_cost

/-- One iteration of the `_calculate_premium_present_value` loop on the
state (accumulated PV, survival probability). -/
def pvStep (q : ℕ → ℚ) (r : ℚ) (age : ℕ) (st : ℚ × ℚ) (year : ℕ) : ℚ × ℚ :=
  (st.1 + st.2 / (1 + r) ^ year, st.2 * (1 - q (min (age + year) 80)))

/-- `_calculate_premium_present_value`: accumulates
`survival_prob / (1+r)^year` with the survival probability carried forward
between years, starting from 1. -/
def calculate_premium_present_value (q : ℕ → ℚ) (r : ℚ) (term age : ℕ) : ℚ :=
  ((List.range term).foldl (pvStep q r age) (0, 1)).1

/-- `_calculate_disability_present_value` with the benefit period already
resolved to a year count: constant morbidity rate applied to the annualized
benefit, discounted year by year. -/
def calculate_disability_present_value (monthly_benefit : ℤ) (morbidity_rate r : ℚ)
    (years : ℕ) : ℚ :=
  (List.range years).foldl
    (fun acc year => acc + (monthly_benefit : ℚ) * 12 * morbidity_rate * (1 / (1 + r) ^ year)) 0

/-- The net-premium step of `calculate_life_insurance_premium` (lines
72-81): benefit PV over premium-annuity PV, defined as 0 when the annuity
PV is not positive. -/
def life_net_premium (q : ℕ → ℚ) (r : ℚ) (age : ℕ) (coverage : ℤ) (term : ℕ) : ℚ :=
  let benefit_pv := calculate_benefit_present_value coverage (calculate_mortality_cost q r age term)
  let premium_pv := calculate_premium_present_value q r term age
  if 0 < premium_pv then benefit_pv / premium_pv else 0

/-- The net-premium step of `calculate_disability_premium` (lines 147-153):
the premium annuity runs to age 65. -/
def disability_net_premium (q : ℕ → ℚ) (r : ℚ) (age : ℕ) (monthly_benefit : ℤ)
    (morbidity_rate : ℚ) (years : ℕ) : ℚ :=
  let benefit_pv := calculate_disability_present_value monthly_benefit morbidity_rate r years
  let premium_pv := calculate_premium_present_value q r (65 - age) age
  if 0 < premium_pv then benefit_pv / premium_pv else 0

/-- The `risk_factors` dict passed to `_calculate_risk_multiplier`; each key
may be absent (`'key' in risk_factors` checks in the source). -/
structure RiskFactors where
  medical_conditions : Option (List String)
  smoking_status : Option String
  hazardous_activities : Option (List String)
deriving DecidableEq

/-- The per-condition factor inside `_calculate_risk_multiplier`'s loop:
the guard `condition in self.underwriting_rules['medical_conditions']`
tests membership among the top-level *category* keys; only when it passes
does the inner category scan run, and a condition found in no category
leaves the multiplier unchanged. -/
def calcCondMult (mc : List (String × List (String × ℚ))) (c : String) : ℚ :=
  if (strLookup mc c).isSome then
    match condLookup mc c with
    | some m => m
    | none => 1
  else 1

/-- `_calculate_risk_multiplier` of actuarial_calculator.py: condition,
smoking and hazardous-activity factors multiplied into one multiplier;
absent keys and untabulated entries contribute 1. -/
def calculate_risk_multiplier (rules : UnderwritingRules) (rf : RiskFactors) : ℚ :=
  let m1 :=
    match rf.medical_conditions with
    | none => 1
    | some conds => conds.foldl (fun acc c => acc * calcCondMult rules.medical_conditions c) 1
  let m2 :=
    match rf.smoking_status with
    | none => 1
    | some s => (strLookup rules.smoking s).getD 1
  let m3 :=
    match rf.hazardous_activities with
    | none => 1
    | some acts => acts.foldl (fun acc a => acc * ((strLookup rules.hazardous_activities a).getD 1)) 1
  m1 * m2 * m3

/-! ### Regulatory engine (regulatory_engine.py) -/

/-- `_check_reserve_adequacy`: reserves must meet the larger of the
solvency margin and the risk-based capital requirement (inclusive bound);
`calculate_comprehensive_reserves` stores this verbatim as
`regulatory_requirements_met`. -/
def check_reserve_adequacy (total_reserves solvency_margin rbc : ℚ) : Bool :=
  max solvency_margin rbc ≤ total_reserves

/-! ### Concrete fixtures used by witnesses and counterexamples -/

/-- A small concrete rule table in the shape of
`data/underwriting_rules.json`, used to evaluate the embedded functions on
closed inputs. -/
def sampleRules : UnderwritingRules :=
  { medical_conditions := [("cardiovascular", [("hypertension", 13/10)])]
    smoking := [("smoker", 2)]
    alcohol := [("moderate_use", 1), ("heavy_use", 3/2)]
    hazardous_activities := [("skydiving", 3/2)]
    occupation_factors := [("class_1_professional", 9/10), ("class_2_standard", 1)]
    life_max_coverage_multiple := 20
    disability_max_benefit_percentage := 3/5
    net_worth_1m_min := 250000
    net_worth_5m_min := 1000000 }

/-- A 70-year-old applicant with one declared condition, shaped exactly as
app.py builds `applicant_data`: the `medical_history` sub-dict holds only
conditions, height and weight — no `age` key. -/
def sampleApplicant70 : Applicant :=
  { age := 70
    medical_history := ⟨["hypertension"], some 70, some 170, none⟩
    lifestyle := ⟨"non_smoker", "moderate_use", []⟩
    occupation := ⟨2, "engineer"⟩
    financial_info := ⟨100000, 200000, 0⟩ }

/-! ### Claim theorems -/

/-- Claim C1: the underwriting decision is a total function of
(financial_risk, overall_risk), evaluated first-match-wins: financial risk
at or above 3.0 declines with maximum coverage 0 regardless of overall
risk; otherwise overall risk ≤ 0.95 is preferred at the requested coverage,
≤ 1.2 standard at the requested coverage, ≤ 2.0 substandard capped at
$2,000,000, ≤ 4.0 substandard capped at $500,000, and anything greater is
declined with 0; and the returned maximum coverage never exceeds the
requested (non-negative) coverage. -/
theorem underwriting_decision_table (f w : ℚ) (c : ℤ) (hc : 0 ≤ c) :
    (3 ≤ f → make_underwriting_decision w f c = (UnderwritingDecision.declined, 0)) ∧
    (f < 3 → w ≤ 95/100 →
      make_underwriting_decision w f c = (UnderwritingDecision.approved_preferred, c)) ∧
    (f < 3 → 95/100 < w → w ≤ 12/10 →
      make_underwriting_decision w f c = (UnderwritingDecision.approved_standard, c)) ∧
    (f < 3 → 12/10 < w → w ≤ 2 →
      make_underwriting_decision w f c = (UnderwritingDecision.approved_substandard, min c 2000000)) ∧
    (f < 3 → 2 < w → w ≤ 4 →
      make_underwriting_decision w f c = (UnderwritingDecision.approved_substandard, min c 500000)) ∧
    (f < 3 → 4 < w → make_underwriting_decision w f c = (UnderwritingDecision.declined, 0)) ∧
    (make_underwriting_decision w f c).2 ≤ c := by
  unfold make_underwriting_decision
  refine ⟨?_, ?_, ?_, ?_, ?_, ?_, ?_⟩ <;> intros <;>
    split_ifs <;> first
      | rfl
      | linarith
      | simp [hc]

/-- Witness for C1 at concrete inputs: financial risk 3.5 declines even at
overall risk 0.5, and overall risk 1.5 is substandard capped at
$2,000,000. -/
theorem underwriting_decision_table_witness :
    make_underwriting_decision (1/2) (7/2) 500000 = (UnderwritingDecision.declined, 0) ∧
    make_underwriting_decision (3/2) 1 5000000
      = (UnderwritingDecision.approved_substandard, min 5000000 2000000) :=
  ⟨(underwriting_decision_table (7/2) (1/2) 500000 (by norm_num)).1 (by norm_num),
   (underwriting_decision_table 1 (3/2) 5000000 (by norm_num)).2.2.2.1
     (by norm_num) (by norm_num) (by norm_num)⟩

/-- Claim C7: the BMI risk multiplier is the banded step function
`<18.5 → 1.2`, `[18.5,25) → 1.0` with no factor text, `[25,30) → 1.1`,
`[30,35) → 1.3`, `[35,40) → 2.0`, `≥40 → 3.0`; in particular BMI exactly
25.0 falls in the overweight band with multiplier 1.1. -/
theorem bmi_band_structure (b : ℚ) :
    (b < 37/2 → assess_bmi_risk b = (6/5, true)) ∧
    (37/2 ≤ b → b < 25 → assess_bmi_risk b = (1, false)) ∧
    (25 ≤ b → b < 30 → assess_bmi_risk b = (11/10, true)) ∧
    (30 ≤ b → b < 35 → assess_bmi_risk b = (13/10, true)) ∧
    (35 ≤ b → b < 40 → assess_bmi_risk b = (2, true)) ∧
    (40 ≤ b → assess_bmi_risk b = (3, true)) ∧
    assess_bmi_risk 25 = (11/10, true) := by
  refine ⟨?_, ?_, ?_, ?_, ?_, ?_, by norm_num [assess_bmi_risk]⟩ <;>
    intros <;> unfold assess_bmi_risk <;> split_ifs with h1 h2 h3 h4 h5 <;>
    first
      | rfl
      | linarith
      | (exact absurd ⟨by linarith, by linarith⟩ h2)
      | (exact absurd ⟨by linarith, by linarith⟩ h3)
      | (exact absurd ⟨by linarith, by linarith⟩ h4)
      | (exact absurd ⟨by linarith, by linarith⟩ h5)

/-- Witness for C7: one concrete BMI in each band, including the 25.0
boundary. -/
theorem bmi_band_structure_witness :
    assess_bmi_risk 17 = (6/5, true) ∧
    assess_bmi_risk 20 = (1, false) ∧
    assess_bmi_risk 25 = (11/10, true) ∧
    assess_bmi_risk 32 = (13/10, true) ∧
    assess_bmi_risk 37 = (2, true) ∧
    assess_bmi_risk 42 = (3, true) :=
  ⟨(bmi_band_structure 17).1 (by norm_num),
   (bmi_band_structure 20).2.1 (by norm_num) (by norm_num),
   (bmi_band_structure 25).2.2.1 (by norm_num) (by norm_num),
   (bmi_band_structure 32).2.2.2.1 (by norm_num) (by norm_num),
   (bmi_band_structure 37).2.2.2.2.1 (by norm_num) (by norm_num),
   (bmi_band_structure 42).2.2.2.2.2.1 (by norm_num)⟩

/-- Claim C8: reserves are regulatory-adequate if and only if total
reserves are at least the larger of the solvency margin and the risk-based
capital, and the boundary is inclusive: equality meets the requirement. -/
theorem reserve_adequacy_boundary (t s rbc : ℚ) :
    (check_reserve_adequacy t s rbc = true ↔ max s rbc ≤ t) ∧
    check_reserve_adequacy (max s rbc) s rbc = true := by
  constructor
  · simp [check_reserve_adequacy]
  · simp [check_reserve_adequacy]

/-- Claim C9: with a non-positive height the BMI computation returns the
default BMI 25 without dividing by the height, and the medical risk
assessment then applies the overweight multiplier 1.1. -/
theorem bmi_invalid_height_default (w h : ℚ) (rules : UnderwritingRules)
    (hh : h ≤ 0) :
    calculate_bmi w h = 25 ∧
    assess_bmi_risk (calculate_bmi w h) = (11/10, true) ∧
    assess_medical_risk rules ⟨[], some h, some w, none⟩ = 11/10 := by
  have hbmi : calculate_bmi w h = 25 := by rw [calculate_bmi, if_pos hh]
  have hband : assess_bmi_risk (25 : ℚ) = (11/10, true) := by
    norm_num [assess_bmi_risk]
  refine ⟨hbmi, by rw [hbmi]; exact hband, ?_⟩
  simp [assess_medical_risk, hbmi, hband]

/-- Witness for C9: weight 170 and height 0 yield BMI 25 and medical
multiplier 1.1 under the sample rules. -/
theorem bmi_invalid_height_default_witness :
    (0 : ℚ) ≤ 0 ∧
    calculate_bmi 170 0 = 25 ∧
    assess_bmi_risk (calculate_bmi 170 0) = (11/10, true) ∧
    assess_medical_risk sampleRules ⟨[], some 0, some 170, none⟩ = 11/10 :=
  ⟨le_refl 0, bmi_invalid_height_default 170 0 sampleRules (le_refl 0)⟩

/-- Claim C2: the combined overall risk multiplier is
`min(medical × lifestyle × occupation, 10)`, hence lies in `(0, 10]` when
the three components are strictly positive; the comprehensive assessment's
overall multiplier is exactly this combination of its three component
multipliers, and the financial information is never folded into it. -/
theorem overall_risk_combination (m l o : ℚ) (rules : UnderwritingRules)
    (a : Applicant) (fi : FinancialInfo) (p : String) (c : ℤ)
    (hm : 0 < m) (hl : 0 < l) (ho : 0 < o) :
    combine_risk_factors m l o = min (m * l * o) 10 ∧
    0 < combine_risk_factors m l o ∧
    combine_risk_factors m l o ≤ 10 ∧
    (perform_comprehensive_risk_assessment rules a p c).overall_risk_multiplier
      = combine_risk_factors
          (perform_comprehensive_risk_assessment rules a p c).medical_risk_multiplier
          (perform_comprehensive_risk_assessment rules a p c).lifestyle_risk_multiplier
          (perform_comprehensive_risk_assessment rules a p c).occupation_risk_multiplier ∧
    (perform_comprehensive_risk_assessment rules
        ⟨a.age, a.medical_history, a.lifestyle, a.occupation, fi⟩ p c).overall_risk_multiplier
      = (perform_comprehensive_risk_assessment rules a p c).overall_risk_multiplier := by
  refine ⟨rfl, ?_, min_le_right _ _, rfl, rfl⟩
  exact lt_min (mul_pos (mul_pos hm hl) ho) (by norm_num)

/-- Witness for C2 at strictly positive component multipliers 1.3, 1.0 and
0.9, with the financial information varied. -/
theorem overall_risk_combination_witness :
    (0 : ℚ) < 13/10 ∧ (0 : ℚ) < 1 ∧ (0 : ℚ) < 9/10 ∧
    combine_risk_factors (13/10) 1 (9/10) = min ((13/10) * 1 * (9/10)) 10 ∧
    0 < combine_risk_factors (13/10) 1 (9/10) ∧
    combine_risk_factors (13/10) 1 (9/10) ≤ 10 ∧
    (perform_comprehensive_risk_assessment sampleRules
        ⟨sampleApplicant70.age, sampleApplicant70.medical_history,
         sampleApplicant70.lifestyle, sampleApplicant70.occupation,
         ⟨0, 0, 1000000⟩⟩ "term_life" 500000).overall_risk_multiplier
      = (perform_comprehensive_risk_assessment sampleRules sampleApplicant70
          "term_life" 500000).overall_risk_multiplier := by
  have h := overall_risk_combination (13/10) 1 (9/10) sampleRules sampleApplicant70
    ⟨0, 0, 1000000⟩ "term_life" 500000 (by norm_num) (by norm_num) (by norm_num)
  exact ⟨by norm_num, by norm_num, by norm_num, h.1, h.2.1, h.2.2.1, h.2.2.2.2⟩

/-- Counterexample to claim C3: under the sample rules, the condition
"gout" appears in no category; the underwriting engine's medical
assessment applies the conservative 1.5 default, but the premium
calculator's `_calculate_risk_multiplier` leaves its multiplier at 1 — it
does not multiply in 1.5. -/
theorem calculator_ignores_unknown_condition :
    assess_medical_risk sampleRules ⟨["gout"], none, none, none⟩ = 3/2 ∧
    calculate_risk_multiplier sampleRules ⟨some ["gout"], none, none⟩ = 1 ∧
    (1 : ℚ) ≠ 3/2 := by
  refine ⟨?_, ?_, by norm_num⟩
  · norm_num +decide [assess_medical_risk, conditionMultiplier, condLookup, strLookup, sampleRules]
  · norm_num +decide [calculate_risk_multiplier, calcCondMult, condLookup, strLookup, sampleRules]

/-- Claim C3 as amended: for a condition found in no category of the
medical-conditions table, the underwriting engine's medical risk
assessment multiplies in the conservative 1.5 default, while the premium
calculator's risk multiplier ignores the condition (its factor is 1). -/
theorem unknown_condition_default_engine_only (rules : UnderwritingRules) (c : String)
    (h : condLookup rules.medical_conditions c = none) :
    assess_medical_risk rules ⟨[c], none, none, none⟩ = 3/2 ∧
    calculate_risk_multiplier rules ⟨some [c], none, none⟩ = 1 := by
  constructor
  · norm_num [assess_medical_risk, conditionMultiplier, h]
  · simp [calculate_risk_multiplier, calcCondMult, h]

/-- Witness for the amended C3 at the concrete unknown condition "gout"
under the sample rules. -/
theorem unknown_condition_default_engine_only_witness :
    condLookup sampleRules.medical_conditions "gout" = none ∧
    (assess_medical_risk sampleRules ⟨["gout"], none, none, none⟩ = 3/2 ∧
     calculate_risk_multiplier sampleRules ⟨some ["gout"], none, none⟩ = 1) :=
  ⟨by decide, unknown_condition_default_engine_only sampleRules "gout" (by decide)⟩

/-- Claim C4 (code behaviour at the failing input): an applicant aged 70
with a declared condition, whose `medical_history` carries no `age` key —
exactly the shape every caller in the repository builds — receives a
medical risk multiplier of 1.3 (the condition factor alone): the 1.1
age adjustment is not applied, because `_assess_medical_risk` reads
`medical_history.get('age', 30)` and never sees the applicant's top-level
age. -/
theorem age_adjustment_never_sees_applicant_age :
    sampleApplicant70.age = 70 ∧
    sampleApplicant70.medical_history.conditions ≠ [] ∧
    sampleApplicant70.medical_history.age = none ∧
    (perform_comprehensive_risk_assessment sampleRules sampleApplicant70
        "term_life" 500000).medical_risk_multiplier = 13/10 ∧
    (13 : ℚ)/10 ≠ 13/10 * (11/10) := by
  refine ⟨rfl, by decide, rfl, ?_, by norm_num⟩
  show assess_medical_risk sampleRules sampleApplicant70.medical_history = 13/10
  norm_num +decide [assess_medical_risk, conditionMultiplier, condLookup, strLookup, sampleRules,
    sampleApplicant70, calculate_bmi, assess_bmi_risk]

/-- Claim C10: with zero annual income the debt-to-income step of the
financial capacity assessment is skipped entirely — the final score equals
the pre-DTI base score (never multiplied by 1.3) and is independent of the
total debt, so the debt/income quotient is never formed. -/
theorem dti_adjustment_income_guard (rules : UnderwritingRules) (fi : FinancialInfo)
    (c : ℤ) (p : String) (h : fi.annual_income = 0) :
    assess_financial_capacity rules fi c p = financial_base_score rules fi c p ∧
    ∀ d : ℚ, assess_financial_capacity rules ⟨fi.annual_income, fi.net_worth, d⟩ c p
      = assess_financial_capacity rules fi c p := by
  constructor
  · simp [assess_financial_capacity, h]
  · intro d
    simp [assess_financial_capacity, financial_base_score, h]

/-- Witness for C10: an applicant with zero income, heavy debt, and a
concrete coverage request keeps the base financial score no matter the
debt amount. -/
theorem dti_adjustment_income_guard_witness :
    (let fi : FinancialInfo := ⟨0, 200000, 500000⟩
     fi.annual_income = 0 ∧
     (assess_financial_capacity sampleRules fi 500000 "term_life"
        = financial_base_score sampleRules fi 500000 "term_life" ∧
      ∀ d : ℚ, assess_financial_capacity sampleRules ⟨fi.annual_income, fi.net_worth, d⟩
          500000 "term_life"
        = assess_financial_capacity sampleRules fi 500000 "term_life")) :=
  ⟨rfl, dti_adjustment_income_guard sampleRules ⟨0, 200000, 500000⟩ 500000 "term_life" rfl⟩

/-- The survival probability carried by `_calculate_premium_present_value`:
`s 0 = 1` and `s (y+1) = s y * (1 - q (min (age+y) 80))`. -/
def survival (q : ℕ → ℚ) (age : ℕ) : ℕ → ℚ
  | 0 => 1
  | y + 1 => survival q age y * (1 - q (min (age + y) 80))

/-- The mortality-cost loop sums each year's discounted mortality rate
independently, with no survival factor. -/
theorem mortality_cost_fold_eq (q : ℕ → ℚ) (r : ℚ) (age : ℕ) :
    ∀ n, calculate_mortality_cost q r age n
      = ∑ y ∈ Finset.range n, q (min (age + y) 80) * (1 / (1 + r) ^ y)
  | 0 => by simp [calculate_mortality_cost]
  | n + 1 => by
    have ih := mortality_cost_fold_eq q r age n
    simp only [calculate_mortality_cost, List.range_succ, List.foldl_append,
      List.foldl_cons, List.foldl_nil] at ih ⊢
    rw [Finset.sum_range_succ, ← ih]

/-- The premium-annuity loop's state after `n` years is the partial sum of
discounted survival probabilities paired with the survival probability for
year `n`. -/
theorem premium_pv_fold_eq (q : ℕ → ℚ) (r : ℚ) (age : ℕ) :
    ∀ n, (List.range n).foldl (pvStep q r age) (0, 1)
      = (∑ y ∈ Finset.range n, survival q age y / (1 + r) ^ y, survival q age n)
  | 0 => by simp [survival]
  | n + 1 => by
    rw [List.range_succ, List.foldl_append, premium_pv_fold_eq q r age n]
    simp [pvStep, survival, Finset.sum_range_succ]

/-- Claim C6: the benefit present value is
`coverage × Σ_{y<term} q(min(age+y,80)) / (1+r)^y`, each year's mortality
cost computed independently, while the premium-annuity present value is
`Σ_{y<term} s_y / (1+r)^y` for the survival sequence `s_0 = 1`,
`s_{y+1} = s_y (1 − q(min(age+y,80)))` — the asymmetry between the two
formulas holds exactly. -/
theorem benefit_and_annuity_formulas (q : ℕ → ℚ) (r : ℚ) (age term : ℕ)
    (coverage : ℤ) :
    calculate_benefit_present_value coverage (calculate_mortality_cost q r age term)
      = (coverage : ℚ) * ∑ y ∈ Finset.range term, q (min (age + y) 80) * (1 / (1 + r) ^ y) ∧
    calculate_premium_present_value q r term age
      = ∑ y ∈ Finset.range term, survival q age y / (1 + r) ^ y ∧
    survival q age 0 = 1 ∧
    (∀ y, survival q age (y + 1) = survival q age y * (1 - q (min (age + y) 80))) := by
  refine ⟨?_, ?_, rfl, fun y => rfl⟩
  · rw [calculate_benefit_present_value, mortality_cost_fold_eq]
  · rw [calculate_premium_present_value, premium_pv_fold_eq]

/-- Claim C5: in both the life and the disability pricing paths the net
premium is the benefit present value divided by the premium-annuity present
value when the latter is positive, and is 0 when the latter is zero (in
particular at term 0); the division is total in the embedding, so no
arithmetic fault arises. -/
theorem net_premium_division_defined (q : ℕ → ℚ) (r : ℚ) (age term : ℕ)
    (cov mb : ℤ) (mr : ℚ) :
    (0 < calculate_premium_present_value q r term age →
      life_net_premium q r age cov term
        = calculate_benefit_present_value cov (calculate_mortality_cost q r age term)
            / calculate_premium_present_value q r term age) ∧
    (calculate_premium_present_value q r term age = 0 →
      life_net_premium q r age cov term = 0) ∧
    (0 < calculate_premium_present_value q r (65 - age) age →
      disability_net_premium q r age mb mr term
        = calculate_disability_present_value mb mr r term
            / calculate_premium_present_value q r (65 - age) age) ∧
    (calculate_premium_present_value q r (65 - age) age = 0 →
      disability_net_premium q r age mb mr term = 0) ∧
    calculate_premium_present_value q r 0 age = 0 ∧
    life_net_premium q r age cov 0 = 0 := by
  have h0 : calculate_premium_present_value q r 0 age = 0 := rfl
  refine ⟨?_, ?_, ?_, ?_, h0, ?_⟩
  · intro h
    unfold life_net_premium
    rw [if_pos h]
  · intro h
    unfold life_net_premium
    rw [if_neg (by rw [h]; exact lt_irrefl 0)]
  · intro h
    unfold disability_net_premium
    rw [if_pos h]
  · intro h
    unfold disability_net_premium
    rw [if_neg (by rw [h]; exact lt_irrefl 0)]
  · unfold life_net_premium
    rw [h0, if_neg (lt_irrefl 0)]

/-- Witness for C5: with a flat 1% mortality table and zero discount rate,
a 30-year-old's one-year annuity PV is 1 (positive), so the net premium is
the benefit PV divided by it; and the annuity PV to age 65 is positive for
the disability path. -/
theorem net_premium_division_defined_witness :
    0 < calculate_premium_present_value (fun _ => 1/100) 0 1 30 ∧
    life_net_premium (fun _ => 1/100) 0 30 1000 1
      = calculate_benefit_present_value 1000
          (calculate_mortality_cost (fun _ => 1/100) 0 30 1)
          / calculate_premium_present_value (fun _ => 1/100) 0 1 30 :=
  have hpos : 0 < calculate_premium_present_value (fun _ => 1/100) 0 1 30 := by
    have hr : List.range 1 = [0] := rfl
    norm_num [calculate_premium_present_value, hr, pvStep]
  ⟨hpos, (net_premium_division_defined (fun _ => 1/100) 0 30 1 1000 5 (1/100)).1 hpos⟩

end PremiumCalc
